import Mathlib

/-
  Verification of the RISC-V FPU helper unit (target/riscv/fpu_helper.c).

  The C file is shallowly embedded below.  Machine integers are Nat with
  explicit `% 2 ^ w` where C truncation occurs.  The external softfloat
  arithmetic library is not part of the source under verification: its
  primitives appear either as explicit function parameters of the helper
  models (for the arithmetic/conversion entry points, whose behaviour the
  claims do not depend on) or as definitions marked "Modelled from the
  spec:" (for the NaN predicates and comparison primitives, whose
  behaviour the claims do depend on).  The model is of the build with the
  privilege check present (the spec's "build that performs the privilege
  check") and TARGET_RISCV64.
-/

namespace RiscvFpu

/-- RISC-V fflags bit for the inexact exception (FPEXC_NX).
Modelled from the spec: the five RISC-V sticky exception-flag bits; the
constants live in cpu headers outside the verified file. -/
def FPEXC_NX : Nat := 1

/-- RISC-V fflags bit for the underflow exception (FPEXC_UF).
Modelled from the spec: see FPEXC_NX. -/
def FPEXC_UF : Nat := 2

/-- RISC-V fflags bit for the overflow exception (FPEXC_OF).
Modelled from the spec: see FPEXC_NX. -/
def FPEXC_OF : Nat := 4

/-- RISC-V fflags bit for the divide-by-zero exception (FPEXC_DZ).
Modelled from the spec: see FPEXC_NX. -/
def FPEXC_DZ : Nat := 8

/-- RISC-V fflags bit for the invalid-operation exception (FPEXC_NV).
Modelled from the spec: see FPEXC_NX. -/
def FPEXC_NV : Nat := 16

/-- Softfloat library flag bit for invalid.
Modelled from the spec: the external library's five IEEE exception flag
bits (float_flag_*); exact values are library configuration. -/
def float_flag_invalid : Nat := 1

/-- Softfloat library flag bit for divide-by-zero.
Modelled from the spec: see float_flag_invalid. -/
def float_flag_divbyzero : Nat := 4

/-- Softfloat library flag bit for overflow.
Modelled from the spec: see float_flag_invalid. -/
def float_flag_overflow : Nat := 8

/-- Softfloat library flag bit for underflow.
Modelled from the spec: see float_flag_invalid. -/
def float_flag_underflow : Nat := 16

/-- Softfloat library flag bit for inexact.
Modelled from the spec: see float_flag_invalid. -/
def float_flag_inexact : Nat := 32

/-- IEEE rounding directive: round to nearest, ties to even.
Modelled from the spec: numeric value of the external library's
float_round_nearest_even directive. -/
def float_round_nearest_even : Nat := 0

/-- IEEE rounding directive: round toward negative infinity.
Modelled from the spec: numeric value of float_round_down. -/
def float_round_down : Nat := 1

/-- IEEE rounding directive: round toward positive infinity.
Modelled from the spec: numeric value of float_round_up. -/
def float_round_up : Nat := 2

/-- IEEE rounding directive: round toward zero.
Modelled from the spec: numeric value of float_round_to_zero. -/
def float_round_to_zero : Nat := 3

/-- IEEE rounding directive: round to nearest, ties away from zero.
Modelled from the spec: numeric value of float_round_ties_away. -/
def float_round_ties_away : Nat := 4

/-- The rounding-mode translation table of fpu_helper.c:
maps RISC-V rounding codes 0..4 to the library's IEEE directives
(static const unsigned int ieee_rm[]). -/
def ieee_rm : List Nat :=
  [float_round_nearest_even,
   float_round_to_zero,
   float_round_down,
   float_round_up,
   float_round_ties_away]

/-- Possible outcomes of set_fp_round_mode: a resolved IEEE directive,
an IllegalInstruction trap, or an out-of-bounds read of the five-entry
ieee_rm table (undefined behaviour in the C source). -/
inductive RmResult where
  | mode (m : Nat) : RmResult
  | trap : RmResult
  | oob : RmResult
deriving Repr, DecidableEq

/-- Model of set_fp_round_mode's resolution logic: if rm == 7 substitute
env->frm, else if rm > 4 raise IllegalInstruction (the raise never
returns); then read ieee_rm[rm].  A read past the end of the table is the
oob outcome.  The install of the resolved directive into fp_status is
performed by the callers below. -/
def set_fp_round_mode (frm rm : Nat) : RmResult :=
  if rm == 7 then
    match ieee_rm[frm]? with
    | some m => .mode m
    | none => .oob
  else if rm > 4 then .trap
  else
    match ieee_rm[rm]? with
    | some m => .mode m
    | none => .oob

/-- The mutable part of the softfloat library context referenced through
env->fp_status: the active rounding directive and the library's transient
exception-flag set. -/
structure FloatStatus where
  float_rounding_mode : Nat
  float_exception_flags : Nat
deriving Repr, DecidableEq

/-- The processor state the helpers read and mutate: the FP-enabled bit
of mstatus (mstatus & MSTATUS_FS, as a Bool), the persisted rounding-mode
register frm, the sticky exception-flag register fflags, and the
library context fp_status. -/
structure CPURISCVState where
  mstatus_fs : Bool
  frm : Nat
  fflags : Nat
  fp_status : FloatStatus
deriving Repr, DecidableEq

/-- Library call set_float_rounding_mode: installs the resolved rounding
directive into the fp_status context. -/
def set_float_rounding_mode (m : Nat) (s : FloatStatus) : FloatStatus :=
  { s with float_rounding_mode := m }

/-- Model of softfloat_flags_to_riscv: translates the library's flag
bits to the RISC-V fflags encoding, one conditional OR per flag. -/
def softfloat_flags_to_riscv (flags : Nat) : Nat :=
  (if flags &&& float_flag_inexact != 0 then FPEXC_NX else 0) |||
  (if flags &&& float_flag_underflow != 0 then FPEXC_UF else 0) |||
  (if flags &&& float_flag_overflow != 0 then FPEXC_OF else 0) |||
  (if flags &&& float_flag_divbyzero != 0 then FPEXC_DZ else 0) |||
  (if flags &&& float_flag_invalid != 0 then FPEXC_NV else 0)

/-- Model of set_fp_exceptions: read the library's transient flags; if
any are set, reset the transient set to zero and OR the translated bits
into the sticky fflags register. -/
def set_fp_exceptions (env : CPURISCVState) : CPURISCVState :=
  let flags := env.fp_status.float_exception_flags
  if flags != 0 then
    { env with
      fp_status := { env.fp_status with float_exception_flags := 0 },
      fflags := env.fflags ||| softfloat_flags_to_riscv flags }
  else env

/-- Outcome of one helper call: normal completion with the final state
and returned value, an IllegalInstruction trap (helper_raise_exception
unwinds, leaving the state it was given), or undefined behaviour from an
out-of-bounds ieee_rm read. -/
inductive Outcome (α : Type) where
  | ok (env : CPURISCVState) (v : α)
  | trap (env : CPURISCVState)
  | ub (env : CPURISCVState)
deriving Repr, DecidableEq

/-- Shared shape of every rounding-dependent helper in fpu_helper.c:
require_fp; set_fp_round_mode; call the primitive (which receives the
resolved directive and, as in the library, ORs the flags it raises into
the transient set); set_fp_exceptions; return the primitive's value.
The primitive parameter takes the resolved rounding directive and
returns (result bits, flags raised by this call). -/
def fp_rounded_op (prim : Nat → Nat × Nat) (env : CPURISCVState) (rm : Nat) :
    Outcome Nat :=
  if env.mstatus_fs = false then .trap env
  else
    match set_fp_round_mode env.frm rm with
    | .trap => .trap env
    | .oob => .ub env
    | .mode m =>
      let env1 := { env with fp_status := set_float_rounding_mode m env.fp_status }
      let v := (prim m).1
      let raised := (prim m).2
      let env2 := { env1 with fp_status :=
        { env1.fp_status with float_exception_flags :=
            env1.fp_status.float_exception_flags ||| raised } }
      .ok (set_fp_exceptions env2) v

/-- Shared shape of the rounding-independent helpers (min, max, the
comparisons): require_fp; call the primitive; set_fp_exceptions; return
the value.  The primitive parameter is the pair (result, flags raised). -/
def fp_plain_op (prim : Nat × Nat) (env : CPURISCVState) : Outcome Nat :=
  if env.mstatus_fs = false then .trap env
  else
    let env2 := { env with fp_status :=
      { env.fp_status with float_exception_flags :=
          env.fp_status.float_exception_flags ||| prim.2 } }
    .ok (set_fp_exceptions env2) prim.1

/-- The isNaNF32UI macro (adapted from spike): a 32-bit pattern is a NaN
when shifting out the sign bit leaves a value above 0xFF000000; the
shift is a 32-bit C shift, hence the explicit truncation. -/
def isNaNF32UI (ui : Nat) : Bool := 0xFF000000 < (ui <<< 1) % 2 ^ 32

/-- The signF32UI macro: sign bit of a 32-bit pattern. -/
def signF32UI (a : Nat) : Bool := a >>> 31 != 0

/-- The expF32UI macro: biased exponent field of a 32-bit pattern. -/
def expF32UI (a : Nat) : Nat := (a >>> 23) &&& 0xFF

/-- The fracF32UI macro: fraction field of a 32-bit pattern. -/
def fracF32UI (a : Nat) : Nat := a &&& 0x7FFFFF

/-- The isNaNF64UI macro: 64-bit analogue of isNaNF32UI. -/
def isNaNF64UI (ui : Nat) : Bool := 0xFFE0000000000000 < (ui <<< 1) % 2 ^ 64

/-- The signF64UI macro: sign bit of a 64-bit pattern. -/
def signF64UI (a : Nat) : Bool := a >>> 63 != 0

/-- The expF64UI macro: biased exponent field of a 64-bit pattern. -/
def expF64UI (a : Nat) : Nat := (a >>> 52) &&& 0x7FF

/-- The fracF64UI macro: fraction field of a 64-bit pattern (defined in
the source and, notably, never used by float64_classify). -/
def fracF64UI (a : Nat) : Nat := a &&& 0x000FFFFFFFFFFFFF

/-- Modelled from the spec: the external library's signaling-NaN
predicate for 32-bit patterns under the RISC-V convention (a NaN is
signaling when the quiet bit, bit 22, is clear). -/
def float32_is_signaling_nan (a : Nat) : Bool :=
  ((a >>> 22) &&& 0x1FF == 0x1FE) && (a &&& 0x3FFFFF != 0)

/-- Modelled from the spec: the external library's signaling-NaN
predicate for 64-bit patterns (quiet bit is bit 51). -/
def float64_is_signaling_nan (a : Nat) : Bool :=
  ((a >>> 51) &&& 0xFFF == 0xFFE) && (a &&& 0x0007FFFFFFFFFFFF != 0)

/-- Modelled from the spec: the external library's
float32_maybe_silence_nan under the RISC-V convention: a signaling NaN is
quietened by setting the quiet bit; any other pattern passes through. -/
def float32_maybe_silence_nan (a : Nat) : Nat :=
  if float32_is_signaling_nan a then a ||| 0x400000 else a

/-- Modelled from the spec: 64-bit analogue of
float32_maybe_silence_nan. -/
def float64_maybe_silence_nan (a : Nat) : Nat :=
  if float64_is_signaling_nan a then a ||| 0x8000000000000 else a

/-- Sign extension of a 32-bit pattern to 64 bits: models the C
conversion chain through int32_t on assignment to the 64-bit register in
the fcvt_w/wu helpers. -/
def sext32 (x : Nat) : Nat :=
  if x < 0x80000000 then x else x + 0xFFFFFFFF00000000

/-- helper_fmadd_s.  The float32_muladd parameter models the external
primitive: arguments a, b, c, the muladd flag word (0 at every call site
in this file's source), and the resolved rounding directive; it returns
(result, flags raised). -/
def helper_fmadd_s (float32_muladd : Nat → Nat → Nat → Nat → Nat → Nat × Nat)
    (env : CPURISCVState) (frs1 frs2 frs3 rm : Nat) : Outcome Nat :=
  fp_rounded_op (float32_muladd frs1 frs2 frs3 0) env rm

/-- helper_fmadd_d, parameterized by the float64_muladd primitive. -/
def helper_fmadd_d (float64_muladd : Nat → Nat → Nat → Nat → Nat → Nat × Nat)
    (env : CPURISCVState) (frs1 frs2 frs3 rm : Nat) : Outcome Nat :=
  fp_rounded_op (float64_muladd frs1 frs2 frs3 0) env rm

/-- helper_fmsub_s: XORs the 32-bit sign mask into operand 3 before the
fused call. -/
def helper_fmsub_s (float32_muladd : Nat → Nat → Nat → Nat → Nat → Nat × Nat)
    (env : CPURISCVState) (frs1 frs2 frs3 rm : Nat) : Outcome Nat :=
  fp_rounded_op (float32_muladd frs1 frs2 (frs3 ^^^ 0x80000000) 0) env rm

/-- helper_fmsub_d: XORs the 64-bit sign mask into operand 3. -/
def helper_fmsub_d (float64_muladd : Nat → Nat → Nat → Nat → Nat → Nat × Nat)
    (env : CPURISCVState) (frs1 frs2 frs3 rm : Nat) : Outcome Nat :=
  fp_rounded_op (float64_muladd frs1 frs2 (frs3 ^^^ 0x8000000000000000) 0) env rm

/-- helper_fnmsub_s: XORs the 32-bit sign mask into operand 1. -/
def helper_fnmsub_s (float32_muladd : Nat → Nat → Nat → Nat → Nat → Nat × Nat)
    (env : CPURISCVState) (frs1 frs2 frs3 rm : Nat) : Outcome Nat :=
  fp_rounded_op (float32_muladd (frs1 ^^^ 0x80000000) frs2 frs3 0) env rm

/-- helper_fnmsub_d: XORs the 64-bit sign mask into operand 1. -/
def helper_fnmsub_d (float64_muladd : Nat → Nat → Nat → Nat → Nat → Nat × Nat)
    (env : CPURISCVState) (frs1 frs2 frs3 rm : Nat) : Outcome Nat :=
  fp_rounded_op (float64_muladd (frs1 ^^^ 0x8000000000000000) frs2 frs3 0) env rm

/-- helper_fnmadd_s: XORs the 32-bit sign mask into operands 1 and 3. -/
def helper_fnmadd_s (float32_muladd : Nat → Nat → Nat → Nat → Nat → Nat × Nat)
    (env : CPURISCVState) (frs1 frs2 frs3 rm : Nat) : Outcome Nat :=
  fp_rounded_op
    (float32_muladd (frs1 ^^^ 0x80000000) frs2 (frs3 ^^^ 0x80000000) 0) env rm

/-- helper_fnmadd_d: XORs the 64-bit sign mask into operands 1 and 3. -/
def helper_fnmadd_d (float64_muladd : Nat → Nat → Nat → Nat → Nat → Nat × Nat)
    (env : CPURISCVState) (frs1 frs2 frs3 rm : Nat) : Outcome Nat :=
  fp_rounded_op
    (float64_muladd (frs1 ^^^ 0x8000000000000000) frs2
      (frs3 ^^^ 0x8000000000000000) 0) env rm

/-- helper_fadd_s.  The binary primitives take the two operands and the
resolved rounding directive and return (result, flags raised). -/
def helper_fadd_s (float32_add : Nat → Nat → Nat → Nat × Nat)
    (env : CPURISCVState) (frs1 frs2 rm : Nat) : Outcome Nat :=
  fp_rounded_op (float32_add frs1 frs2) env rm

/-- helper_fsub_s. -/
def helper_fsub_s (float32_sub : Nat → Nat → Nat → Nat × Nat)
    (env : CPURISCVState) (frs1 frs2 rm : Nat) : Outcome Nat :=
  fp_rounded_op (float32_sub frs1 frs2) env rm

/-- helper_fmul_s. -/
def helper_fmul_s (float32_mul : Nat → Nat → Nat → Nat × Nat)
    (env : CPURISCVState) (frs1 frs2 rm : Nat) : Outcome Nat :=
  fp_rounded_op (float32_mul frs1 frs2) env rm

/-- helper_fdiv_s. -/
def helper_fdiv_s (float32_div : Nat → Nat → Nat → Nat × Nat)
    (env : CPURISCVState) (frs1 frs2 rm : Nat) : Outcome Nat :=
  fp_rounded_op (float32_div frs1 frs2) env rm

/-- helper_fmin_s: rounding-independent, so the primitive parameter is
just the pair (result, flags raised) for the two operands at hand. -/
def helper_fmin_s (float32_minnum : Nat → Nat → Nat × Nat)
    (env : CPURISCVState) (frs1 frs2 : Nat) : Outcome Nat :=
  fp_plain_op (float32_minnum frs1 frs2) env

/-- helper_fmax_s. -/
def helper_fmax_s (float32_maxnum : Nat → Nat → Nat × Nat)
    (env : CPURISCVState) (frs1 frs2 : Nat) : Outcome Nat :=
  fp_plain_op (float32_maxnum frs1 frs2) env

/-- helper_fsqrt_s. -/
def helper_fsqrt_s (float32_sqrt : Nat → Nat → Nat × Nat)
    (env : CPURISCVState) (frs1 rm : Nat) : Outcome Nat :=
  fp_rounded_op (float32_sqrt frs1) env rm

/-- helper_fle_s. -/
def helper_fle_s (float32_le : Nat → Nat → Nat × Nat)
    (env : CPURISCVState) (frs1 frs2 : Nat) : Outcome Nat :=
  fp_plain_op (float32_le frs1 frs2) env

/-- helper_flt_s. -/
def helper_flt_s (float32_lt : Nat → Nat → Nat × Nat)
    (env : CPURISCVState) (frs1 frs2 : Nat) : Outcome Nat :=
  fp_plain_op (float32_lt frs1 frs2) env

/-- helper_feq_s. -/
def helper_feq_s (float32_eq_quiet : Nat → Nat → Nat × Nat)
    (env : CPURISCVState) (frs1 frs2 : Nat) : Outcome Nat :=
  fp_plain_op (float32_eq_quiet frs1 frs2) env

/-- helper_fcvt_w_s: the float32_to_int32 primitive's int32_t result is
modelled as its 32-bit two's-complement pattern; the assignment to the
uint64_t register sign-extends it. -/
def helper_fcvt_w_s (float32_to_int32 : Nat → Nat → Nat × Nat)
    (env : CPURISCVState) (frs1 rm : Nat) : Outcome Nat :=
  match fp_rounded_op (float32_to_int32 frs1) env rm with
  | .ok env' v => .ok env' (sext32 (v % 2 ^ 32))
  | r => r

/-- helper_fcvt_wu_s: the uint32 result is cast through int32_t, so the
assignment to the 64-bit register also sign-extends it. -/
def helper_fcvt_wu_s (float32_to_uint32 : Nat → Nat → Nat × Nat)
    (env : CPURISCVState) (frs1 rm : Nat) : Outcome Nat :=
  match fp_rounded_op (float32_to_uint32 frs1) env rm with
  | .ok env' v => .ok env' (sext32 (v % 2 ^ 32))
  | r => r

/-- helper_fcvt_l_s (TARGET_RISCV64 build). -/
def helper_fcvt_l_s (float32_to_int64 : Nat → Nat → Nat × Nat)
    (env : CPURISCVState) (frs1 rm : Nat) : Outcome Nat :=
  fp_rounded_op (float32_to_int64 frs1) env rm

/-- helper_fcvt_lu_s (TARGET_RISCV64 build). -/
def helper_fcvt_lu_s (float32_to_uint64 : Nat → Nat → Nat × Nat)
    (env : CPURISCVState) (frs1 rm : Nat) : Outcome Nat :=
  fp_rounded_op (float32_to_uint64 frs1) env rm

/-- helper_fcvt_s_w: the register value is first truncated by the C cast
to int32_t; the primitive receives the resulting 32-bit pattern. -/
def helper_fcvt_s_w (int32_to_float32 : Nat → Nat → Nat × Nat)
    (env : CPURISCVState) (rs1 rm : Nat) : Outcome Nat :=
  fp_rounded_op (int32_to_float32 (rs1 % 2 ^ 32)) env rm

/-- helper_fcvt_s_wu: truncation by the cast to uint32_t. -/
def helper_fcvt_s_wu (uint32_to_float32 : Nat → Nat → Nat × Nat)
    (env : CPURISCVState) (rs1 rm : Nat) : Outcome Nat :=
  fp_rounded_op (uint32_to_float32 (rs1 % 2 ^ 32)) env rm

/-- helper_fcvt_s_l (TARGET_RISCV64 build). -/
def helper_fcvt_s_l (int64_to_float32 : Nat → Nat → Nat × Nat)
    (env : CPURISCVState) (rs1 rm : Nat) : Outcome Nat :=
  fp_rounded_op (int64_to_float32 rs1) env rm

/-- helper_fcvt_s_lu (TARGET_RISCV64 build). -/
def helper_fcvt_s_lu (uint64_to_float32 : Nat → Nat → Nat × Nat)
    (env : CPURISCVState) (rs1 rm : Nat) : Outcome Nat :=
  fp_rounded_op (uint64_to_float32 rs1) env rm

/-- The shared classification decision table of float32_classify and
float64_classify: the big OR of shifted boolean conditions, written once
over the six extracted booleans since the source repeats the identical
expression for both widths. -/
def classifyBits (sign infOrNaN subnormalOrZero fracZero isNaN isSNaN : Bool) : Nat :=
  (sign && infOrNaN && fracZero).toNat <<< 0 |||
  (sign && !infOrNaN && !subnormalOrZero).toNat <<< 1 |||
  (sign && subnormalOrZero && !fracZero).toNat <<< 2 |||
  (sign && subnormalOrZero && fracZero).toNat <<< 3 |||
  (!sign && infOrNaN && fracZero).toNat <<< 7 |||
  (!sign && !infOrNaN && !subnormalOrZero).toNat <<< 6 |||
  (!sign && subnormalOrZero && !fracZero).toNat <<< 5 |||
  (!sign && subnormalOrZero && fracZero).toNat <<< 4 |||
  (isNaN && isSNaN).toNat <<< 8 |||
  (isNaN && !isSNaN).toNat <<< 9

/-- float32_classify on a 32-bit pattern. -/
def float32_classify (uiA : Nat) : Nat :=
  let infOrNaN := expF32UI uiA == 0xFF
  let subnormalOrZero := expF32UI uiA == 0
  let sign := signF32UI uiA
  let fracZero := fracF32UI uiA == 0
  let isNaN := isNaNF32UI uiA
  let isSNaN := float32_is_signaling_nan uiA
  classifyBits sign infOrNaN subnormalOrZero fracZero isNaN isSNaN

/-- float64_classify on a 64-bit pattern.  fracZero is computed with the
32-bit fraction macro fracF32UI, exactly as in the source (fracF64UI is
defined there but not used). -/
def float64_classify (uiA : Nat) : Nat :=
  let infOrNaN := expF64UI uiA == 0x7FF
  let subnormalOrZero := expF64UI uiA == 0
  let sign := signF64UI uiA
  let fracZero := fracF32UI uiA == 0
  let isNaN := isNaNF64UI uiA
  let isSNaN := float64_is_signaling_nan uiA
  classifyBits sign infOrNaN subnormalOrZero fracZero isNaN isSNaN

/-- helper_fclass_s: gated by require_fp, then the pure classification
of the operand truncated by the C conversion to uint32_t; it neither
resolves a rounding mode nor touches the flag registers. -/
def helper_fclass_s (env : CPURISCVState) (frs1 : Nat) : Outcome Nat :=
  if env.mstatus_fs = false then .trap env
  else .ok env (float32_classify (frs1 % 2 ^ 32))

/-- helper_fadd_d. -/
def helper_fadd_d (float64_add : Nat → Nat → Nat → Nat × Nat)
    (env : CPURISCVState) (frs1 frs2 rm : Nat) : Outcome Nat :=
  fp_rounded_op (float64_add frs1 frs2) env rm

/-- helper_fsub_d. -/
def helper_fsub_d (float64_sub : Nat → Nat → Nat → Nat × Nat)
    (env : CPURISCVState) (frs1 frs2 rm : Nat) : Outcome Nat :=
  fp_rounded_op (float64_sub frs1 frs2) env rm

/-- helper_fmul_d. -/
def helper_fmul_d (float64_mul : Nat → Nat → Nat → Nat × Nat)
    (env : CPURISCVState) (frs1 frs2 rm : Nat) : Outcome Nat :=
  fp_rounded_op (float64_mul frs1 frs2) env rm

/-- helper_fdiv_d. -/
def helper_fdiv_d (float64_div : Nat → Nat → Nat → Nat × Nat)
    (env : CPURISCVState) (frs1 frs2 rm : Nat) : Outcome Nat :=
  fp_rounded_op (float64_div frs1 frs2) env rm

/-- helper_fmin_d. -/
def helper_fmin_d (float64_minnum : Nat → Nat → Nat × Nat)
    (env : CPURISCVState) (frs1 frs2 : Nat) : Outcome Nat :=
  fp_plain_op (float64_minnum frs1 frs2) env

/-- helper_fmax_d. -/
def helper_fmax_d (float64_maxnum : Nat → Nat → Nat × Nat)
    (env : CPURISCVState) (frs1 frs2 : Nat) : Outcome Nat :=
  fp_plain_op (float64_maxnum frs1 frs2) env

/-- helper_fcvt_s_d: narrows, then returns the conversion result passed
through float32_maybe_silence_nan (applied after set_fp_exceptions, as
in the source's return expression). -/
def helper_fcvt_s_d (float64_to_float32 : Nat → Nat → Nat × Nat)
    (env : CPURISCVState) (rs1 rm : Nat) : Outcome Nat :=
  match fp_rounded_op (float64_to_float32 rs1) env rm with
  | .ok env' v => .ok env' (float32_maybe_silence_nan v)
  | r => r

/-- helper_fcvt_d_s: widens, then silences via
float64_maybe_silence_nan. -/
def helper_fcvt_d_s (float32_to_float64 : Nat → Nat → Nat × Nat)
    (env : CPURISCVState) (rs1 rm : Nat) : Outcome Nat :=
  match fp_rounded_op (float32_to_float64 rs1) env rm with
  | .ok env' v => .ok env' (float64_maybe_silence_nan v)
  | r => r

/-- helper_fsqrt_d. -/
def helper_fsqrt_d (float64_sqrt : Nat → Nat → Nat × Nat)
    (env : CPURISCVState) (frs1 rm : Nat) : Outcome Nat :=
  fp_rounded_op (float64_sqrt frs1) env rm

/-- helper_fle_d. -/
def helper_fle_d (float64_le : Nat → Nat → Nat × Nat)
    (env : CPURISCVState) (frs1 frs2 : Nat) : Outcome Nat :=
  fp_plain_op (float64_le frs1 frs2) env

/-- helper_flt_d. -/
def helper_flt_d (float64_lt : Nat → Nat → Nat × Nat)
    (env : CPURISCVState) (frs1 frs2 : Nat) : Outcome Nat :=
  fp_plain_op (float64_lt frs1 frs2) env

/-- helper_feq_d. -/
def helper_feq_d (float64_eq_quiet : Nat → Nat → Nat × Nat)
    (env : CPURISCVState) (frs1 frs2 : Nat) : Outcome Nat :=
  fp_plain_op (float64_eq_quiet frs1 frs2) env

/-- helper_fcvt_w_d: the int32 result is cast through int32_t and
int64_t, i.e. sign-extended into the 64-bit register. -/
def helper_fcvt_w_d (float64_to_int32 : Nat → Nat → Nat × Nat)
    (env : CPURISCVState) (frs1 rm : Nat) : Outcome Nat :=
  match fp_rounded_op (float64_to_int32 frs1) env rm with
  | .ok env' v => .ok env' (sext32 (v % 2 ^ 32))
  | r => r

/-- helper_fcvt_wu_d: the uint32 result is cast through int32_t and
int64_t, i.e. sign-extended. -/
def helper_fcvt_wu_d (float64_to_uint32 : Nat → Nat → Nat × Nat)
    (env : CPURISCVState) (frs1 rm : Nat) : Outcome Nat :=
  match fp_rounded_op (float64_to_uint32 frs1) env rm with
  | .ok env' v => .ok env' (sext32 (v % 2 ^ 32))
  | r => r

/-- helper_fcvt_l_d (TARGET_RISCV64 build). -/
def helper_fcvt_l_d (float64_to_int64 : Nat → Nat → Nat × Nat)
    (env : CPURISCVState) (frs1 rm : Nat) : Outcome Nat :=
  fp_rounded_op (float64_to_int64 frs1) env rm

/-- helper_fcvt_lu_d (TARGET_RISCV64 build). -/
def helper_fcvt_lu_d (float64_to_uint64 : Nat → Nat → Nat × Nat)
    (env : CPURISCVState) (frs1 rm : Nat) : Outcome Nat :=
  fp_rounded_op (float64_to_uint64 frs1) env rm

/-- helper_fcvt_d_w: the register value is truncated by the cast to
int32_t before the primitive call. -/
def helper_fcvt_d_w (int32_to_float64 : Nat → Nat → Nat × Nat)
    (env : CPURISCVState) (rs1 rm : Nat) : Outcome Nat :=
  fp_rounded_op (int32_to_float64 (rs1 % 2 ^ 32)) env rm

/-- helper_fcvt_d_wu: truncation by the cast to uint32_t. -/
def helper_fcvt_d_wu (uint32_to_float64 : Nat → Nat → Nat × Nat)
    (env : CPURISCVState) (rs1 rm : Nat) : Outcome Nat :=
  fp_rounded_op (uint32_to_float64 (rs1 % 2 ^ 32)) env rm

/-- helper_fcvt_d_l (TARGET_RISCV64 build). -/
def helper_fcvt_d_l (int64_to_float64 : Nat → Nat → Nat × Nat)
    (env : CPURISCVState) (rs1 rm : Nat) : Outcome Nat :=
  fp_rounded_op (int64_to_float64 rs1) env rm

/-- helper_fcvt_d_lu (TARGET_RISCV64 build). -/
def helper_fcvt_d_lu (uint64_to_float64 : Nat → Nat → Nat × Nat)
    (env : CPURISCVState) (rs1 rm : Nat) : Outcome Nat :=
  fp_rounded_op (uint64_to_float64 rs1) env rm

/-- helper_fclass_d: gated by require_fp, then the pure classification
of the 64-bit operand. -/
def helper_fclass_d (env : CPURISCVState) (frs1 : Nat) : Outcome Nat :=
  if env.mstatus_fs = false then .trap env
  else .ok env (float64_classify frs1)

/-- Decides whether a classification result is a one-hot vector over the
ten class bits: exactly one bit set, and it is one of bits 0..9. -/
def isOneHot10 (n : Nat) : Bool :=
  (List.range 10).any fun i => n == 2 ^ i

theorem classifyBits_oneHot :
    ∀ sign infOrNaN subnormalOrZero fracZero isNaN isSNaN : Bool,
    ¬(infOrNaN = true ∧ subnormalOrZero = true) →
    (isNaN = true ↔ (infOrNaN = true ∧ ¬(fracZero = true))) →
    (isSNaN = true → isNaN = true) →
    isOneHot10 (classifyBits sign infOrNaN subnormalOrZero fracZero isNaN isSNaN) = true := by
  decide

theorem expF32UI_eq_div_mod (ui : Nat) : expF32UI ui = ui / 8388608 % 256 := by
  have h : (0xFF : Nat) = 2 ^ 8 - 1 := by norm_num
  rw [expF32UI, h, Nat.and_pow_two_sub_one_eq_mod, Nat.shiftRight_eq_div_pow]

theorem fracF32UI_eq_mod (ui : Nat) : fracF32UI ui = ui % 8388608 := by
  have h : (0x7FFFFF : Nat) = 2 ^ 23 - 1 := by norm_num
  rw [fracF32UI, h, Nat.and_pow_two_sub_one_eq_mod]

theorem isNaNF32UI_iff (ui : Nat) :
    isNaNF32UI ui = true ↔ 0xFF000000 < ui * 2 % 4294967296 := by
  rw [isNaNF32UI, Nat.shiftLeft_eq]
  simp only [decide_eq_true_eq]
  norm_num

theorem float32_is_signaling_nan_iff (ui : Nat) :
    float32_is_signaling_nan ui = true ↔
      (ui / 4194304 % 512 = 510 ∧ ui % 4194304 ≠ 0) := by
  have h1 : (0x1FF : Nat) = 2 ^ 9 - 1 := by norm_num
  have h2 : (0x3FFFFF : Nat) = 2 ^ 22 - 1 := by norm_num
  rw [float32_is_signaling_nan, h1, h2, Nat.and_pow_two_sub_one_eq_mod,
    Nat.and_pow_two_sub_one_eq_mod, Nat.shiftRight_eq_div_pow]
  simp only [Bool.and_eq_true, beq_iff_eq, bne_iff_ne, ne_eq]

theorem float32_classify_oneHot (ui : Nat) (h : ui < 2 ^ 32) :
    isOneHot10 (float32_classify ui) = true := by
  have hlt : ui < 4294967296 := by norm_num at h ⊢; exact h
  rw [float32_classify]
  apply classifyBits_oneHot
  · simp only [beq_iff_eq, expF32UI_eq_div_mod]
    omega
  · simp only [beq_iff_eq, isNaNF32UI_iff, expF32UI_eq_div_mod, fracF32UI_eq_mod]
    omega
  · simp only [float32_is_signaling_nan_iff, isNaNF32UI_iff]
    omega

/-- C1: the 32-bit classifier does return a one-hot vector over the ten
class bits for every 32-bit pattern, but the 64-bit classifier does not:
because float64_classify computes fracZero with the 32-bit fraction mask
(fracF32UI instead of the fracF64UI the source defines for it), the
64-bit NaN 0x7FF0000001000000, whose fraction is nonzero but whose low
23 bits are all zero, classifies as 0x180: positive-infinity (bit 7) and
signaling-NaN (bit 8) simultaneously. -/
theorem classify_one_hot_status :
    (∀ ui : Nat, ui < 2 ^ 32 → isOneHot10 (float32_classify ui) = true) ∧
    float64_classify 0x7FF0000001000000 = 0x180 ∧
    isOneHot10 (float64_classify 0x7FF0000001000000) = false :=
  ⟨float32_classify_oneHot, by decide, by decide⟩

/-- Witness for classify_one_hot_status: the quiet-NaN pattern
0x7FC00000 classifies one-hot. -/
theorem classify_one_hot_status_witness :
    isOneHot10 (float32_classify 0x7FC00000) = true :=
  classify_one_hot_status.1 0x7FC00000 (by norm_num)

/-- C2: the claim says a dynamic rounding code (rm = 7) whose stored frm
is 5 faults with IllegalInstruction.  The code instead skips the range
check on the substituted value and reads ieee_rm[5], one past the end of
the five-entry table: an out-of-bounds access, not a trap. -/
theorem set_fp_round_mode_dynamic_frm5_reads_out_of_bounds :
    set_fp_round_mode 5 7 = RmResult.oob ∧ set_fp_round_mode 5 7 ≠ RmResult.trap := by
  constructor
  · rfl
  · intro h
    simp [set_fp_round_mode, ieee_rm] at h

/-- C6: for explicit rounding codes the resolver is deterministic and
total on 0..4 with the mapping 0 to nearest-even, 1 to toward-zero, 2 to
toward-negative, 3 to toward-positive, 4 to nearest-away; codes 5 and 6
always raise IllegalInstruction; and code 7 behaves exactly as the mode
currently stored in frm whenever frm holds a valid mode (0..4). -/
theorem set_fp_round_mode_mapping :
    (∀ frm : Nat,
      set_fp_round_mode frm 0 = RmResult.mode float_round_nearest_even ∧
      set_fp_round_mode frm 1 = RmResult.mode float_round_to_zero ∧
      set_fp_round_mode frm 2 = RmResult.mode float_round_down ∧
      set_fp_round_mode frm 3 = RmResult.mode float_round_up ∧
      set_fp_round_mode frm 4 = RmResult.mode float_round_ties_away ∧
      set_fp_round_mode frm 5 = RmResult.trap ∧
      set_fp_round_mode frm 6 = RmResult.trap) ∧
    (∀ frm : Nat, frm ≤ 4 →
      set_fp_round_mode frm 7 = set_fp_round_mode frm frm) := by
  constructor
  · intro frm
    refine ⟨rfl, rfl, rfl, rfl, rfl, rfl, rfl⟩
  · intro frm h
    interval_cases frm <;> rfl

/-- Witness for set_fp_round_mode_mapping at frm = 2: dynamic code 7
with stored mode 2 resolves exactly as explicit code 2 does. -/
theorem set_fp_round_mode_mapping_witness :
    set_fp_round_mode 2 7 = set_fp_round_mode 2 2 :=
  set_fp_round_mode_mapping.2 2 (by decide)

theorem or_absorb_left (a t : Nat) : a ||| (a ||| t) = a ||| t := by
  rw [← Nat.or_assoc, Nat.or_self]

theorem softfloat_flags_to_riscv_zero : softfloat_flags_to_riscv 0 = 0 := rfl

theorem set_fp_exceptions_fflags (env : CPURISCVState) :
    (set_fp_exceptions env).fflags =
      env.fflags ||| softfloat_flags_to_riscv env.fp_status.float_exception_flags := by
  unfold set_fp_exceptions
  by_cases h : env.fp_status.float_exception_flags = 0
  · simp [h, softfloat_flags_to_riscv_zero]
  · simp [h]

theorem set_fp_exceptions_exc (env : CPURISCVState) :
    (set_fp_exceptions env).fp_status.float_exception_flags = 0 := by
  unfold set_fp_exceptions
  by_cases h0 : env.fp_status.float_exception_flags = 0 <;> simp [h0]

/-- C3 counterexample: in the build with the privilege check, with the
FP-enabled bit clear, helper_fclass_s traps with IllegalInstruction
instead of classifying: the classification entry point does perform the
gate, contrary to the claim. -/
theorem helper_fclass_gate_counterexample :
    helper_fclass_s ⟨false, 0, 0, ⟨0, 0⟩⟩ 0x3F800000 =
      Outcome.trap ⟨false, 0, 0, ⟨0, 0⟩⟩ := rfl

/-- C3 amended: helper_fclass_s and helper_fclass_d do perform the
FP-enabled gate (require_fp) and trap with IllegalInstruction when the
flag is clear; when the flag is set they behave as pure functions of the
raw operand bit pattern: the result is the classification of the operand
alone and the processor state is returned unchanged. -/
theorem helper_fclass_pure_when_enabled (env : CPURISCVState) (frs1 : Nat)
    (h : env.mstatus_fs = true) :
    helper_fclass_s env frs1 = .ok env (float32_classify (frs1 % 2 ^ 32)) ∧
    helper_fclass_d env frs1 = .ok env (float64_classify frs1) := by
  constructor <;> simp [helper_fclass_s, helper_fclass_d, h]

/-- Witness for helper_fclass_pure_when_enabled at a concrete enabled
state and operand. -/
theorem helper_fclass_pure_when_enabled_witness :
    helper_fclass_s ⟨true, 0, 0, ⟨0, 0⟩⟩ 1 =
      .ok ⟨true, 0, 0, ⟨0, 0⟩⟩ (float32_classify 1) ∧
    helper_fclass_d ⟨true, 0, 0, ⟨0, 0⟩⟩ 1 =
      .ok ⟨true, 0, 0, ⟨0, 0⟩⟩ (float64_classify 1) :=
  helper_fclass_pure_when_enabled ⟨true, 0, 0, ⟨0, 0⟩⟩ 1 rfl

/-- C4: within either operation shape, sticky fflags bits are only ever
ORed in, never cleared; and when the library's transient flag set is
empty at entry (as it is after every preceding operation, each of which
drains the set), the bits ORed into fflags are exactly the translation of
the flags raised by this call's primitive, and the transient set is again
empty on exit. -/
theorem fflags_accumulate_only :
    ∀ (prim : Nat → Nat × Nat) (p0 : Nat × Nat) (env env' : CPURISCVState) (rm v : Nat),
    (fp_rounded_op prim env rm = .ok env' v →
      env.fflags ||| env'.fflags = env'.fflags) ∧
    (fp_plain_op p0 env = .ok env' v →
      env.fflags ||| env'.fflags = env'.fflags) ∧
    (env.fp_status.float_exception_flags = 0 →
      fp_rounded_op prim env rm = .ok env' v →
      env'.fp_status.float_exception_flags = 0 ∧
      ∃ m, set_fp_round_mode env.frm rm = .mode m ∧ v = (prim m).1 ∧
        env'.fflags = env.fflags ||| softfloat_flags_to_riscv (prim m).2) ∧
    (env.fp_status.float_exception_flags = 0 →
      fp_plain_op p0 env = .ok env' v →
      env'.fp_status.float_exception_flags = 0 ∧ v = p0.1 ∧
      env'.fflags = env.fflags ||| softfloat_flags_to_riscv p0.2) := by
  intro prim p0 env env' rm v
  refine ⟨?_, ?_, ?_, ?_⟩
  · intro hok
    unfold fp_rounded_op at hok
    split at hok
    · simp at hok
    · split at hok
      · simp at hok
      · simp at hok
      · simp only [Outcome.ok.injEq] at hok
        rw [← hok.1, set_fp_exceptions_fflags]
        exact or_absorb_left _ _
  · intro hok
    unfold fp_plain_op at hok
    split at hok
    · simp at hok
    · simp only [Outcome.ok.injEq] at hok
      rw [← hok.1, set_fp_exceptions_fflags]
      exact or_absorb_left _ _
  · intro hexc hok
    unfold fp_rounded_op at hok
    split at hok
    · simp at hok
    · split at hok
      · simp at hok
      · simp at hok
      next m hm =>
        simp only [Outcome.ok.injEq] at hok
        refine ⟨?_, m, hm, hok.2.symm, ?_⟩
        · rw [← hok.1]
          exact set_fp_exceptions_exc _
        · rw [← hok.1, set_fp_exceptions_fflags]
          simp [set_float_rounding_mode, hexc]
  · intro hexc hok
    unfold fp_plain_op at hok
    split at hok
    · simp at hok
    · simp only [Outcome.ok.injEq] at hok
      refine ⟨?_, hok.2.symm, ?_⟩
      · rw [← hok.1]
        exact set_fp_exceptions_exc _
      · rw [← hok.1, set_fp_exceptions_fflags]
        simp [hexc]

/-- Witness for fflags_accumulate_only with a primitive raising the
invalid flag from a clean enabled state. -/
theorem fflags_accumulate_only_witness :
    (⟨true, 0, 16, ⟨0, 0⟩⟩ : CPURISCVState).fp_status.float_exception_flags = 0 ∧
    ∃ m, set_fp_round_mode 0 0 = .mode m ∧ (7 : Nat) = ((fun _ => ((7 : Nat), (1 : Nat))) m).1 ∧
      (⟨true, 0, 16, ⟨0, 0⟩⟩ : CPURISCVState).fflags =
        0 ||| softfloat_flags_to_riscv ((fun _ => ((7 : Nat), (1 : Nat))) m).2 :=
  (fflags_accumulate_only (fun _ => (7, 1)) (0, 0) ⟨true, 0, 0, ⟨0, 0⟩⟩
    ⟨true, 0, 16, ⟨0, 0⟩⟩ 0 7).2.2.1 rfl rfl

theorem fp_rounded_op_gate (prim : Nat → Nat × Nat) (env : CPURISCVState) (rm : Nat)
    (h : env.mstatus_fs = false) : fp_rounded_op prim env rm = .trap env := by
  simp [fp_rounded_op, h]

theorem fp_plain_op_gate (prim : Nat × Nat) (env : CPURISCVState)
    (h : env.mstatus_fs = false) : fp_plain_op prim env = .trap env := by
  simp [fp_plain_op, h]

/-- C5: in the build with the privilege check, with the FP-enabled flag
clear, every arithmetic, conversion and comparison entry point traps
with IllegalInstruction immediately and returns the processor state it
was given, bit for bit: no rounding-mode resolution, no primitive call,
no flag translation. -/
theorem all_ops_trap_when_fp_disabled (env : CPURISCVState) (h : env.mstatus_fs = false)
    (p3 : Nat → Nat → Nat → Nat → Nat → Nat × Nat)
    (p2 : Nat → Nat → Nat → Nat × Nat)
    (pm : Nat → Nat → Nat × Nat)
    (p1 : Nat → Nat → Nat × Nat)
    (a b c rm : Nat) :
    helper_fmadd_s p3 env a b c rm = .trap env ∧
    helper_fmadd_d p3 env a b c rm = .trap env ∧
    helper_fmsub_s p3 env a b c rm = .trap env ∧
    helper_fmsub_d p3 env a b c rm = .trap env ∧
    helper_fnmsub_s p3 env a b c rm = .trap env ∧
    helper_fnmsub_d p3 env a b c rm = .trap env ∧
    helper_fnmadd_s p3 env a b c rm = .trap env ∧
    helper_fnmadd_d p3 env a b c rm = .trap env ∧
    helper_fadd_s p2 env a b rm = .trap env ∧
    helper_fsub_s p2 env a b rm = .trap env ∧
    helper_fmul_s p2 env a b rm = .trap env ∧
    helper_fdiv_s p2 env a b rm = .trap env ∧
    helper_fmin_s pm env a b = .trap env ∧
    helper_fmax_s pm env a b = .trap env ∧
    helper_fsqrt_s p1 env a rm = .trap env ∧
    helper_fle_s pm env a b = .trap env ∧
    helper_flt_s pm env a b = .trap env ∧
    helper_feq_s pm env a b = .trap env ∧
    helper_fcvt_w_s p1 env a rm = .trap env ∧
    helper_fcvt_wu_s p1 env a rm = .trap env ∧
    helper_fcvt_l_s p1 env a rm = .trap env ∧
    helper_fcvt_lu_s p1 env a rm = .trap env ∧
    helper_fcvt_s_w p1 env a rm = .trap env ∧
    helper_fcvt_s_wu p1 env a rm = .trap env ∧
    helper_fcvt_s_l p1 env a rm = .trap env ∧
    helper_fcvt_s_lu p1 env a rm = .trap env ∧
    helper_fadd_d p2 env a b rm = .trap env ∧
    helper_fsub_d p2 env a b rm = .trap env ∧
    helper_fmul_d p2 env a b rm = .trap env ∧
    helper_fdiv_d p2 env a b rm = .trap env ∧
    helper_fmin_d pm env a b = .trap env ∧
    helper_fmax_d pm env a b = .trap env ∧
    helper_fcvt_s_d p1 env a rm = .trap env ∧
    helper_fcvt_d_s p1 env a rm = .trap env ∧
    helper_fsqrt_d p1 env a rm = .trap env ∧
    helper_fle_d pm env a b = .trap env ∧
    helper_flt_d pm env a b = .trap env ∧
    helper_feq_d pm env a b = .trap env ∧
    helper_fcvt_w_d p1 env a rm = .trap env ∧
    helper_fcvt_wu_d p1 env a rm = .trap env ∧
    helper_fcvt_l_d p1 env a rm = .trap env ∧
    helper_fcvt_lu_d p1 env a rm = .trap env ∧
    helper_fcvt_d_w p1 env a rm = .trap env ∧
    helper_fcvt_d_wu p1 env a rm = .trap env ∧
    helper_fcvt_d_l p1 env a rm = .trap env ∧
    helper_fcvt_d_lu p1 env a rm = .trap env := by
  refine ⟨?_, ?_, ?_, ?_, ?_, ?_, ?_, ?_, ?_, ?_, ?_, ?_, ?_, ?_, ?_, ?_, ?_, ?_,
    ?_, ?_, ?_, ?_, ?_, ?_, ?_, ?_, ?_, ?_, ?_, ?_, ?_, ?_, ?_, ?_, ?_, ?_, ?_,
    ?_, ?_, ?_, ?_, ?_, ?_, ?_, ?_, ?_⟩ <;>
  first
    | exact fp_rounded_op_gate _ _ _ h
    | exact fp_plain_op_gate _ _ h
    | (simp only [helper_fcvt_w_s, helper_fcvt_wu_s, helper_fcvt_w_d, helper_fcvt_wu_d,
        helper_fcvt_s_d, helper_fcvt_d_s]
       rw [fp_rounded_op_gate _ _ _ h])

/-- Witness for all_ops_trap_when_fp_disabled at a concrete disabled
state and trivial primitives. -/
theorem all_ops_trap_when_fp_disabled_witness :
    helper_fadd_s (fun _ _ _ => (0, 0)) ⟨false, 0, 0, ⟨0, 0⟩⟩ 1 2 0 =
      .trap ⟨false, 0, 0, ⟨0, 0⟩⟩ :=
  (all_ops_trap_when_fp_disabled ⟨false, 0, 0, ⟨0, 0⟩⟩ rfl
    (fun _ _ _ _ _ => (0, 0)) (fun _ _ _ => (0, 0)) (fun _ _ => (0, 0))
    (fun _ _ => (0, 0)) 1 2 0 0).2.2.2.2.2.2.2.2.1

/-- C7: each negated fused-multiply-add variant is the plain fused
helper applied after XORing exactly the sign-bit mask into operand 1
and/or operand 3, never operand 2, for every primitive, state, operand
triple and rounding code; and XOR with the sign mask changes the sign
bit alone, leaving every other bit (exponent and mantissa, NaN payloads
included) untouched. -/
theorem fused_sign_flip_variants :
    (∀ (muladd : Nat → Nat → Nat → Nat → Nat → Nat × Nat) (env : CPURISCVState)
        (a b c rm : Nat),
      helper_fmsub_s muladd env a b c rm =
        helper_fmadd_s muladd env a b (c ^^^ 0x80000000) rm ∧
      helper_fnmsub_s muladd env a b c rm =
        helper_fmadd_s muladd env (a ^^^ 0x80000000) b c rm ∧
      helper_fnmadd_s muladd env a b c rm =
        helper_fmadd_s muladd env (a ^^^ 0x80000000) b (c ^^^ 0x80000000) rm ∧
      helper_fmsub_d muladd env a b c rm =
        helper_fmadd_d muladd env a b (c ^^^ 0x8000000000000000) rm ∧
      helper_fnmsub_d muladd env a b c rm =
        helper_fmadd_d muladd env (a ^^^ 0x8000000000000000) b c rm ∧
      helper_fnmadd_d muladd env a b c rm =
        helper_fmadd_d muladd env (a ^^^ 0x8000000000000000) b
          (c ^^^ 0x8000000000000000) rm) ∧
    (∀ x i : Nat, i ≠ 31 → (x ^^^ 0x80000000).testBit i = x.testBit i) ∧
    (∀ x : Nat, (x ^^^ 0x80000000).testBit 31 = !x.testBit 31) ∧
    (∀ x i : Nat, i ≠ 63 → (x ^^^ 0x8000000000000000).testBit i = x.testBit i) ∧
    (∀ x : Nat, (x ^^^ 0x8000000000000000).testBit 63 = !x.testBit 63) := by
  have h31 : (0x80000000 : Nat) = 2 ^ 31 := by norm_num
  have h63 : (0x8000000000000000 : Nat) = 2 ^ 63 := by norm_num
  refine ⟨fun _ _ _ _ _ _ => ⟨rfl, rfl, rfl, rfl, rfl, rfl⟩, ?_, ?_, ?_, ?_⟩
  · intro x i hi
    rw [h31, Nat.testBit_xor, Nat.testBit_two_pow]
    simp [Ne.symm hi]
  · intro x
    rw [h31, Nat.testBit_xor, Nat.testBit_two_pow]
    simp [Bool.xor_comm]
  · intro x i hi
    rw [h63, Nat.testBit_xor, Nat.testBit_two_pow]
    simp [Ne.symm hi]
  · intro x
    rw [h63, Nat.testBit_xor, Nat.testBit_two_pow]
    simp [Bool.xor_comm]

/-- Witness for fused_sign_flip_variants: bit 0 of the pattern 5 is
unchanged by the 32-bit sign flip. -/
theorem fused_sign_flip_variants_witness :
    (5 ^^^ 0x80000000 : Nat).testBit 0 = (5 : Nat).testBit 0 :=
  fused_sign_flip_variants.2.1 5 0 (by norm_num)

theorem shiftRight_or (a b n : Nat) : (a ||| b) >>> n = (a >>> n) ||| (b >>> n) := by
  apply Nat.eq_of_testBit_eq
  intro i
  simp [Nat.testBit_shiftRight, Nat.testBit_or]

theorem or_and_distrib (a b c : Nat) : (a ||| b) &&& c = (a &&& c) ||| (b &&& c) := by
  apply Nat.eq_of_testBit_eq
  intro i
  simp [Nat.testBit_and, Nat.testBit_or, Bool.and_or_distrib_right]

theorem or_eq_zero_right (a b : Nat) (h : a ||| b = 0) : b = 0 := by
  apply Nat.eq_of_testBit_eq
  intro i
  rw [Nat.zero_testBit]
  have hi := congrArg (fun n => Nat.testBit n i) h
  simp only [Nat.testBit_or, Nat.zero_testBit] at hi
  exact (Bool.or_eq_false_iff.mp hi).2

theorem isNaNF32UI_iff_fields (ui : Nat) (_h : ui < 4294967296) :
    isNaNF32UI ui = true ↔ (expF32UI ui = 255 ∧ fracF32UI ui ≠ 0) := by
  rw [isNaNF32UI_iff, expF32UI_eq_div_mod, fracF32UI_eq_mod]
  omega

theorem expF64UI_eq_div_mod (ui : Nat) :
    expF64UI ui = ui / 4503599627370496 % 2048 := by
  have h : (0x7FF : Nat) = 2 ^ 11 - 1 := by norm_num
  rw [expF64UI, h, Nat.and_pow_two_sub_one_eq_mod, Nat.shiftRight_eq_div_pow]

theorem fracF64UI_eq_mod (ui : Nat) : fracF64UI ui = ui % 4503599627370496 := by
  have h : (0x000FFFFFFFFFFFFF : Nat) = 2 ^ 52 - 1 := by norm_num
  rw [fracF64UI, h, Nat.and_pow_two_sub_one_eq_mod]

theorem isNaNF64UI_iff (ui : Nat) :
    isNaNF64UI ui = true ↔
      18437736874454810624 < ui * 2 % 18446744073709551616 := by
  rw [isNaNF64UI, Nat.shiftLeft_eq]
  simp only [decide_eq_true_eq]
  norm_num

theorem isNaNF64UI_iff_fields (ui : Nat) (_h : ui < 18446744073709551616) :
    isNaNF64UI ui = true ↔ (expF64UI ui = 2047 ∧ fracF64UI ui ≠ 0) := by
  rw [isNaNF64UI_iff, expF64UI_eq_div_mod, fracF64UI_eq_mod]
  omega

theorem float32_silence_not_signaling (x : Nat) :
    float32_is_signaling_nan (float32_maybe_silence_nan x) = false := by
  unfold float32_maybe_silence_nan
  by_cases hs : float32_is_signaling_nan x = true
  · simp only [hs, if_true]
    have hb : ((x ||| 0x400000) >>> 22) &&& 0x1FF ≠ 0x1FE := by
      intro hEq
      have h0 := congrArg (fun n => Nat.testBit n 0) hEq
      simp only [Nat.testBit_and, Nat.testBit_shiftRight, Nat.testBit_or,
        Nat.add_zero] at h0
      rw [show Nat.testBit 0x400000 22 = true from by decide,
        show Nat.testBit 0x1FF 0 = true from by decide,
        show Nat.testBit 0x1FE 0 = false from by decide] at h0
      simp at h0
    simp [float32_is_signaling_nan, hb]
  · simp only [Bool.not_eq_true] at hs
    simp [hs]

theorem float64_silence_not_signaling (x : Nat) :
    float64_is_signaling_nan (float64_maybe_silence_nan x) = false := by
  unfold float64_maybe_silence_nan
  by_cases hs : float64_is_signaling_nan x = true
  · simp only [hs, if_true]
    have hb : ((x ||| 0x8000000000000) >>> 51) &&& 0xFFF ≠ 0xFFE := by
      intro hEq
      have h0 := congrArg (fun n => Nat.testBit n 0) hEq
      simp only [Nat.testBit_and, Nat.testBit_shiftRight, Nat.testBit_or,
        Nat.add_zero] at h0
      rw [show Nat.testBit 0x8000000000000 51 = true from by decide,
        show Nat.testBit 0xFFF 0 = true from by decide,
        show Nat.testBit 0xFFE 0 = false from by decide] at h0
      simp at h0
    simp [float64_is_signaling_nan, hb]
  · simp only [Bool.not_eq_true] at hs
    simp [hs]

theorem float32_silence_keeps_nan (x : Nat) (hx : x < 4294967296)
    (h : isNaNF32UI x = true) :
    isNaNF32UI (float32_maybe_silence_nan x) = true := by
  unfold float32_maybe_silence_nan
  by_cases hs : float32_is_signaling_nan x = true
  · simp only [hs, if_true]
    have hy : (x ||| 0x400000) < 4294967296 := by
      have h32 : (4294967296 : Nat) = 2 ^ 32 := by norm_num
      rw [h32] at hx ⊢
      exact Nat.or_lt_two_pow hx (by norm_num)
    rw [isNaNF32UI_iff_fields _ hy]
    rw [isNaNF32UI_iff_fields x hx] at h
    obtain ⟨he, hf⟩ := h
    constructor
    · rw [expF32UI, shiftRight_or, show (0x400000 : Nat) >>> 23 = 0 from rfl,
        Nat.or_zero]
      exact he
    · rw [fracF32UI, or_and_distrib,
        show (0x400000 : Nat) &&& 0x7FFFFF = 0x400000 from rfl]
      intro hz
      exact absurd (or_eq_zero_right _ _ hz) (by norm_num)
  · simp only [Bool.not_eq_true] at hs
    simp [hs, h]

theorem float64_silence_keeps_nan (x : Nat) (hx : x < 18446744073709551616)
    (h : isNaNF64UI x = true) :
    isNaNF64UI (float64_maybe_silence_nan x) = true := by
  unfold float64_maybe_silence_nan
  by_cases hs : float64_is_signaling_nan x = true
  · simp only [hs, if_true]
    have hy : (x ||| 0x8000000000000) < 18446744073709551616 := by
      have h64 : (18446744073709551616 : Nat) = 2 ^ 64 := by norm_num
      rw [h64] at hx ⊢
      exact Nat.or_lt_two_pow hx (by norm_num)
    rw [isNaNF64UI_iff_fields _ hy]
    rw [isNaNF64UI_iff_fields x hx] at h
    obtain ⟨he, hf⟩ := h
    constructor
    · rw [expF64UI, shiftRight_or, show (0x8000000000000 : Nat) >>> 52 = 0 from rfl,
        Nat.or_zero]
      exact he
    · rw [fracF64UI, or_and_distrib,
        show (0x8000000000000 : Nat) &&& 0x000FFFFFFFFFFFFF = 0x8000000000000 from rfl]
      intro hz
      exact absurd (or_eq_zero_right _ _ hz) (by norm_num)
  · simp only [Bool.not_eq_true] at hs
    simp [hs, h]

/-- C8: the value returned by a successful cross-width conversion has
passed through the maybe-silence step, so it is never a signaling NaN,
whatever the conversion primitive produced; and the silencing step turns
any NaN pattern (a signaling one in particular) into a quiet NaN while
leaving it a NaN. -/
theorem cvt_cross_width_never_signaling :
    (∀ (conv : Nat → Nat → Nat × Nat) (env env' : CPURISCVState) (rs1 rm v : Nat),
      helper_fcvt_s_d conv env rs1 rm = .ok env' v →
      float32_is_signaling_nan v = false) ∧
    (∀ (conv : Nat → Nat → Nat × Nat) (env env' : CPURISCVState) (rs1 rm v : Nat),
      helper_fcvt_d_s conv env rs1 rm = .ok env' v →
      float64_is_signaling_nan v = false) ∧
    (∀ x : Nat, x < 4294967296 → isNaNF32UI x = true →
      isNaNF32UI (float32_maybe_silence_nan x) = true ∧
      float32_is_signaling_nan (float32_maybe_silence_nan x) = false) ∧
    (∀ x : Nat, x < 18446744073709551616 → isNaNF64UI x = true →
      isNaNF64UI (float64_maybe_silence_nan x) = true ∧
      float64_is_signaling_nan (float64_maybe_silence_nan x) = false) := by
  refine ⟨?_, ?_, ?_, ?_⟩
  · intro conv env env' rs1 rm v hok
    unfold helper_fcvt_s_d at hok
    split at hok
    · simp only [Outcome.ok.injEq] at hok
      rw [← hok.2]
      exact float32_silence_not_signaling _
    next r hne => exact absurd hok (hne _ _)
  · intro conv env env' rs1 rm v hok
    unfold helper_fcvt_d_s at hok
    split at hok
    · simp only [Outcome.ok.injEq] at hok
      rw [← hok.2]
      exact float64_silence_not_signaling _
    next r hne => exact absurd hok (hne _ _)
  · intro x hx h
    exact ⟨float32_silence_keeps_nan x hx h, float32_silence_not_signaling x⟩
  · intro x hx h
    exact ⟨float64_silence_keeps_nan x hx h, float64_silence_not_signaling x⟩

/-- Witness for cvt_cross_width_never_signaling: narrowing with a
primitive that hands back the 32-bit signaling NaN 0x7F800001 returns the
quiet NaN 0x7FC00001, which is not signaling. -/
theorem cvt_cross_width_never_signaling_witness :
    float32_is_signaling_nan 0x7FC00001 = false :=
  cvt_cross_width_never_signaling.1 (fun _ _ => (0x7F800001, 0))
    ⟨true, 0, 0, ⟨0, 0⟩⟩ ⟨true, 0, 0, ⟨0, 0⟩⟩ 0 0 0x7FC00001 rfl

/-- Modelled from the spec: the external library's 32-bit quiet
less-or-equal comparison.  Operands are the low 32 bits of the register
values; any NaN operand yields 0 and raises invalid; otherwise the
sign-magnitude order on the patterns decides, the two zeros comparing
equal. -/
def float32_le (a b : Nat) : Nat × Nat :=
  let a' := a % 2 ^ 32
  let b' := b % 2 ^ 32
  if isNaNF32UI a' || isNaNF32UI b' then (0, float_flag_invalid)
  else if signF32UI a' != signF32UI b' then
    (if signF32UI a' || ((a' ||| b') <<< 1) % 2 ^ 32 == 0 then 1 else 0, 0)
  else
    (if a' == b' || (signF32UI a' ^^ decide (a' < b')) then 1 else 0, 0)

/-- Modelled from the spec: the external library's 32-bit quiet
less-than comparison; invalid on any NaN operand. -/
def float32_lt (a b : Nat) : Nat × Nat :=
  let a' := a % 2 ^ 32
  let b' := b % 2 ^ 32
  if isNaNF32UI a' || isNaNF32UI b' then (0, float_flag_invalid)
  else if signF32UI a' != signF32UI b' then
    (if signF32UI a' && ((a' ||| b') <<< 1) % 2 ^ 32 != 0 then 1 else 0, 0)
  else
    (if a' != b' && (signF32UI a' ^^ decide (a' < b')) then 1 else 0, 0)

/-- Modelled from the spec: the external library's 32-bit quiet equality
comparison: NaN operands yield 0 and raise invalid only when one of them
is signaling. -/
def float32_eq_quiet (a b : Nat) : Nat × Nat :=
  let a' := a % 2 ^ 32
  let b' := b % 2 ^ 32
  if isNaNF32UI a' || isNaNF32UI b' then
    (0, if float32_is_signaling_nan a' || float32_is_signaling_nan b' then
      float_flag_invalid else 0)
  else
    (if a' == b' || ((a' ||| b') <<< 1) % 2 ^ 32 == 0 then 1 else 0, 0)

/-- Modelled from the spec: 64-bit analogue of float32_le. -/
def float64_le (a b : Nat) : Nat × Nat :=
  let a' := a % 2 ^ 64
  let b' := b % 2 ^ 64
  if isNaNF64UI a' || isNaNF64UI b' then (0, float_flag_invalid)
  else if signF64UI a' != signF64UI b' then
    (if signF64UI a' || ((a' ||| b') <<< 1) % 2 ^ 64 == 0 then 1 else 0, 0)
  else
    (if a' == b' || (signF64UI a' ^^ decide (a' < b')) then 1 else 0, 0)

/-- Modelled from the spec: 64-bit analogue of float32_lt. -/
def float64_lt (a b : Nat) : Nat × Nat :=
  let a' := a % 2 ^ 64
  let b' := b % 2 ^ 64
  if isNaNF64UI a' || isNaNF64UI b' then (0, float_flag_invalid)
  else if signF64UI a' != signF64UI b' then
    (if signF64UI a' && ((a' ||| b') <<< 1) % 2 ^ 64 != 0 then 1 else 0, 0)
  else
    (if a' != b' && (signF64UI a' ^^ decide (a' < b')) then 1 else 0, 0)

/-- Modelled from the spec: 64-bit analogue of float32_eq_quiet. -/
def float64_eq_quiet (a b : Nat) : Nat × Nat :=
  let a' := a % 2 ^ 64
  let b' := b % 2 ^ 64
  if isNaNF64UI a' || isNaNF64UI b' then
    (0, if float64_is_signaling_nan a' || float64_is_signaling_nan b' then
      float_flag_invalid else 0)
  else
    (if a' == b' || ((a' ||| b') <<< 1) % 2 ^ 64 == 0 then 1 else 0, 0)

theorem float64_is_signaling_nan_iff (ui : Nat) :
    float64_is_signaling_nan ui = true ↔
      (ui / 2251799813685248 % 4096 = 4094 ∧ ui % 2251799813685248 ≠ 0) := by
  have h1 : (0xFFF : Nat) = 2 ^ 12 - 1 := by norm_num
  have h2 : (0x0007FFFFFFFFFFFF : Nat) = 2 ^ 51 - 1 := by norm_num
  rw [float64_is_signaling_nan, h1, h2, Nat.and_pow_two_sub_one_eq_mod,
    Nat.and_pow_two_sub_one_eq_mod, Nat.shiftRight_eq_div_pow]
  simp only [Bool.and_eq_true, beq_iff_eq, bne_iff_ne, ne_eq]

theorem float32_snan_imp_nan (x : Nat) :
    float32_is_signaling_nan x = true → isNaNF32UI x = true := by
  rw [float32_is_signaling_nan_iff, isNaNF32UI_iff]
  omega

theorem float64_snan_imp_nan (x : Nat) :
    float64_is_signaling_nan x = true → isNaNF64UI x = true := by
  rw [float64_is_signaling_nan_iff, isNaNF64UI_iff]
  omega

theorem fp_plain_op_ok_inv (p0 : Nat × Nat) (env env' : CPURISCVState) (v : Nat)
    (hok : fp_plain_op p0 env = .ok env' v) :
    v = p0.1 ∧ (env.fp_status.float_exception_flags = 0 →
      env'.fflags = env.fflags ||| softfloat_flags_to_riscv p0.2) := by
  unfold fp_plain_op at hok
  split at hok
  · simp at hok
  · simp only [Outcome.ok.injEq] at hok
    refine ⟨hok.2.symm, fun hexc => ?_⟩
    rw [← hok.1, set_fp_exceptions_fflags]
    simp [hexc]

theorem translate_invalid : softfloat_flags_to_riscv float_flag_invalid = FPEXC_NV := rfl

theorem float32_le_val (a b : Nat) : (float32_le a b).1 = 0 ∨ (float32_le a b).1 = 1 := by
  simp only [float32_le]
  split
  · exact Or.inl rfl
  · split
    · split
      · exact Or.inr rfl
      · exact Or.inl rfl
    · split
      · exact Or.inr rfl
      · exact Or.inl rfl

theorem float32_lt_val (a b : Nat) : (float32_lt a b).1 = 0 ∨ (float32_lt a b).1 = 1 := by
  simp only [float32_lt]
  split
  · exact Or.inl rfl
  · split
    · split
      · exact Or.inr rfl
      · exact Or.inl rfl
    · split
      · exact Or.inr rfl
      · exact Or.inl rfl

theorem float32_eq_quiet_val (a b : Nat) :
    (float32_eq_quiet a b).1 = 0 ∨ (float32_eq_quiet a b).1 = 1 := by
  simp only [float32_eq_quiet]
  split
  · exact Or.inl rfl
  · split
    · exact Or.inr rfl
    · exact Or.inl rfl

theorem float64_le_val (a b : Nat) : (float64_le a b).1 = 0 ∨ (float64_le a b).1 = 1 := by
  simp only [float64_le]
  split
  · exact Or.inl rfl
  · split
    · split
      · exact Or.inr rfl
      · exact Or.inl rfl
    · split
      · exact Or.inr rfl
      · exact Or.inl rfl

theorem float64_lt_val (a b : Nat) : (float64_lt a b).1 = 0 ∨ (float64_lt a b).1 = 1 := by
  simp only [float64_lt]
  split
  · exact Or.inl rfl
  · split
    · split
      · exact Or.inr rfl
      · exact Or.inl rfl
    · split
      · exact Or.inr rfl
      · exact Or.inl rfl

theorem float64_eq_quiet_val (a b : Nat) :
    (float64_eq_quiet a b).1 = 0 ∨ (float64_eq_quiet a b).1 = 1 := by
  simp only [float64_eq_quiet]
  split
  · exact Or.inl rfl
  · split
    · exact Or.inr rfl
    · exact Or.inl rfl

theorem float32_le_flags (a b : Nat) :
    (float32_le a b).2 =
      if isNaNF32UI (a % 2 ^ 32) || isNaNF32UI (b % 2 ^ 32) then float_flag_invalid
      else 0 := by
  simp only [float32_le]
  split
  · rfl
  · split <;> rfl

theorem float32_lt_flags (a b : Nat) :
    (float32_lt a b).2 =
      if isNaNF32UI (a % 2 ^ 32) || isNaNF32UI (b % 2 ^ 32) then float_flag_invalid
      else 0 := by
  simp only [float32_lt]
  split
  · rfl
  · split <;> rfl

theorem float32_eq_quiet_flags (a b : Nat) :
    (float32_eq_quiet a b).2 =
      if float32_is_signaling_nan (a % 2 ^ 32) || float32_is_signaling_nan (b % 2 ^ 32)
      then float_flag_invalid else 0 := by
  simp only [float32_eq_quiet]
  split
  · rfl
  next h =>
    simp only [Bool.not_eq_true, Bool.or_eq_false_iff] at h
    have hsa : float32_is_signaling_nan (a % 2 ^ 32) = false := by
      cases hsa' : float32_is_signaling_nan (a % 2 ^ 32)
      · rfl
      · have hna := float32_snan_imp_nan _ hsa'
        rw [h.1] at hna
        simp at hna
    have hsb : float32_is_signaling_nan (b % 2 ^ 32) = false := by
      cases hsb' : float32_is_signaling_nan (b % 2 ^ 32)
      · rfl
      · have hnb := float32_snan_imp_nan _ hsb'
        rw [h.2] at hnb
        simp at hnb
    rw [hsa, hsb]
    simp

theorem float64_le_flags (a b : Nat) :
    (float64_le a b).2 =
      if isNaNF64UI (a % 2 ^ 64) || isNaNF64UI (b % 2 ^ 64) then float_flag_invalid
      else 0 := by
  simp only [float64_le]
  split
  · rfl
  · split <;> rfl

theorem float64_lt_flags (a b : Nat) :
    (float64_lt a b).2 =
      if isNaNF64UI (a % 2 ^ 64) || isNaNF64UI (b % 2 ^ 64) then float_flag_invalid
      else 0 := by
  simp only [float64_lt]
  split
  · rfl
  · split <;> rfl

theorem float64_eq_quiet_flags (a b : Nat) :
    (float64_eq_quiet a b).2 =
      if float64_is_signaling_nan (a % 2 ^ 64) || float64_is_signaling_nan (b % 2 ^ 64)
      then float_flag_invalid else 0 := by
  simp only [float64_eq_quiet]
  split
  · rfl
  next h =>
    simp only [Bool.not_eq_true, Bool.or_eq_false_iff] at h
    have hsa : float64_is_signaling_nan (a % 2 ^ 64) = false := by
      cases hsa' : float64_is_signaling_nan (a % 2 ^ 64)
      · rfl
      · have hna := float64_snan_imp_nan _ hsa'
        rw [h.1] at hna
        simp at hna
    have hsb : float64_is_signaling_nan (b % 2 ^ 64) = false := by
      cases hsb' : float64_is_signaling_nan (b % 2 ^ 64)
      · rfl
      · have hnb := float64_snan_imp_nan _ hsb'
        rw [h.2] at hnb
        simp at hnb
    rw [hsa, hsb]
    simp

/-- C9: with the library comparison primitives modelled from the spec,
each comparison helper returns exactly 0 or 1; the equal helpers use the
quiet predicate and contribute the invalid flag exactly when a signaling
NaN is an operand (a quiet NaN contributes nothing); the less-than and
less-or-equal helpers contribute the invalid flag exactly when any
operand is a NaN, quiet or signaling - and since every signaling NaN is
a NaN, all three signal invalid on signaling NaN operands. -/
theorem compare_helpers_nan_flags :
    ∀ (env env' : CPURISCVState) (a b v : Nat),
    (helper_fle_s float32_le env a b = .ok env' v → (v = 0 ∨ v = 1) ∧
      (env.fp_status.float_exception_flags = 0 →
        env'.fflags = env.fflags |||
          (if isNaNF32UI (a % 2 ^ 32) || isNaNF32UI (b % 2 ^ 32)
           then FPEXC_NV else 0))) ∧
    (helper_flt_s float32_lt env a b = .ok env' v → (v = 0 ∨ v = 1) ∧
      (env.fp_status.float_exception_flags = 0 →
        env'.fflags = env.fflags |||
          (if isNaNF32UI (a % 2 ^ 32) || isNaNF32UI (b % 2 ^ 32)
           then FPEXC_NV else 0))) ∧
    (helper_feq_s float32_eq_quiet env a b = .ok env' v → (v = 0 ∨ v = 1) ∧
      (env.fp_status.float_exception_flags = 0 →
        env'.fflags = env.fflags |||
          (if float32_is_signaling_nan (a % 2 ^ 32) ||
              float32_is_signaling_nan (b % 2 ^ 32)
           then FPEXC_NV else 0))) ∧
    (helper_fle_d float64_le env a b = .ok env' v → (v = 0 ∨ v = 1) ∧
      (env.fp_status.float_exception_flags = 0 →
        env'.fflags = env.fflags |||
          (if isNaNF64UI (a % 2 ^ 64) || isNaNF64UI (b % 2 ^ 64)
           then FPEXC_NV else 0))) ∧
    (helper_flt_d float64_lt env a b = .ok env' v → (v = 0 ∨ v = 1) ∧
      (env.fp_status.float_exception_flags = 0 →
        env'.fflags = env.fflags |||
          (if isNaNF64UI (a % 2 ^ 64) || isNaNF64UI (b % 2 ^ 64)
           then FPEXC_NV else 0))) ∧
    (helper_feq_d float64_eq_quiet env a b = .ok env' v → (v = 0 ∨ v = 1) ∧
      (env.fp_status.float_exception_flags = 0 →
        env'.fflags = env.fflags |||
          (if float64_is_signaling_nan (a % 2 ^ 64) ||
              float64_is_signaling_nan (b % 2 ^ 64)
           then FPEXC_NV else 0))) := by
  intro env env' a b v
  refine ⟨?_, ?_, ?_, ?_, ?_, ?_⟩ <;> intro hok
  · obtain ⟨hv, hff⟩ := fp_plain_op_ok_inv _ _ _ _ hok
    refine ⟨hv ▸ float32_le_val a b, fun hexc => ?_⟩
    rw [hff hexc, float32_le_flags]
    split <;> simp [translate_invalid, softfloat_flags_to_riscv_zero]
  · obtain ⟨hv, hff⟩ := fp_plain_op_ok_inv _ _ _ _ hok
    refine ⟨hv ▸ float32_lt_val a b, fun hexc => ?_⟩
    rw [hff hexc, float32_lt_flags]
    split <;> simp [translate_invalid, softfloat_flags_to_riscv_zero]
  · obtain ⟨hv, hff⟩ := fp_plain_op_ok_inv _ _ _ _ hok
    refine ⟨hv ▸ float32_eq_quiet_val a b, fun hexc => ?_⟩
    rw [hff hexc, float32_eq_quiet_flags]
    split <;> simp [translate_invalid, softfloat_flags_to_riscv_zero]
  · obtain ⟨hv, hff⟩ := fp_plain_op_ok_inv _ _ _ _ hok
    refine ⟨hv ▸ float64_le_val a b, fun hexc => ?_⟩
    rw [hff hexc, float64_le_flags]
    split <;> simp [translate_invalid, softfloat_flags_to_riscv_zero]
  · obtain ⟨hv, hff⟩ := fp_plain_op_ok_inv _ _ _ _ hok
    refine ⟨hv ▸ float64_lt_val a b, fun hexc => ?_⟩
    rw [hff hexc, float64_lt_flags]
    split <;> simp [translate_invalid, softfloat_flags_to_riscv_zero]
  · obtain ⟨hv, hff⟩ := fp_plain_op_ok_inv _ _ _ _ hok
    refine ⟨hv ▸ float64_eq_quiet_val a b, fun hexc => ?_⟩
    rw [hff hexc, float64_eq_quiet_flags]
    split <;> simp [translate_invalid, softfloat_flags_to_riscv_zero]

/-- Witness for compare_helpers_nan_flags: quiet-equal on the quiet NaN
0x7FC00000 and 0 completes with no invalid-flag contribution. -/
theorem compare_helpers_nan_flags_witness :
    (⟨true, 0, 0, ⟨0, 0⟩⟩ : CPURISCVState).fflags =
      (⟨true, 0, 0, ⟨0, 0⟩⟩ : CPURISCVState).fflags |||
        (if float32_is_signaling_nan (0x7FC00000 % 2 ^ 32) ||
            float32_is_signaling_nan (0 % 2 ^ 32) then FPEXC_NV else 0) :=
  ((compare_helpers_nan_flags ⟨true, 0, 0, ⟨0, 0⟩⟩ ⟨true, 0, 0, ⟨0, 0⟩⟩
    0x7FC00000 0 0).2.2.1 rfl).2 rfl

theorem sext32_high_bits (r : Nat) (h : r < 4294967296) :
    sext32 r % 4294967296 = r ∧
    (r.testBit 31 = true → sext32 r >>> 32 = 4294967295) ∧
    (r.testBit 31 = false → sext32 r >>> 32 = 0) := by
  unfold sext32
  refine ⟨by split <;> omega, fun hb => ?_, fun hb => ?_⟩
  · rw [Nat.testBit_to_div_mod] at hb
    simp only [decide_eq_true_eq] at hb
    rw [Nat.shiftRight_eq_div_pow]
    split <;> omega
  · rw [Nat.testBit_to_div_mod] at hb
    simp only [decide_eq_false_iff_not] at hb
    rw [Nat.shiftRight_eq_div_pow]
    split <;> omega

/-- C10: each float-to-word helper hands back the primitive's 32-bit
result sign-extended to the 64-bit register width: the low word is the
32-bit result and the upper 32 bits are all ones exactly when bit 31 of
the 32-bit result is set - in particular the unsigned-word conversions
come back sign-extended, not zero-extended. -/
theorem fcvt_word_results_sign_extended :
    ∀ (prim : Nat → Nat → Nat × Nat) (env env' : CPURISCVState) (x rm v : Nat),
    (helper_fcvt_w_s prim env x rm = .ok env' v ∨
     helper_fcvt_wu_s prim env x rm = .ok env' v ∨
     helper_fcvt_w_d prim env x rm = .ok env' v ∨
     helper_fcvt_wu_d prim env x rm = .ok env' v) →
    ∃ r, r < 4294967296 ∧ v = sext32 r ∧ v % 4294967296 = r ∧
      (r.testBit 31 = true → v >>> 32 = 4294967295) ∧
      (r.testBit 31 = false → v >>> 32 = 0) := by
  intro prim env env' x rm v hok
  have main : ∀ w : Nat, v = sext32 (w % 2 ^ 32) →
      ∃ r, r < 4294967296 ∧ v = sext32 r ∧ v % 4294967296 = r ∧
        (r.testBit 31 = true → v >>> 32 = 4294967295) ∧
        (r.testBit 31 = false → v >>> 32 = 0) := by
    intro w hv
    have hr : w % 2 ^ 32 < 4294967296 := by
      have := Nat.mod_lt w (y := 2 ^ 32) (by norm_num)
      norm_num at this ⊢
      exact this
    obtain ⟨h1, h2, h3⟩ := sext32_high_bits (w % 2 ^ 32) hr
    exact ⟨w % 2 ^ 32, hr, hv, by rw [hv]; exact h1,
      fun hb => by rw [hv]; exact h2 hb, fun hb => by rw [hv]; exact h3 hb⟩
  rcases hok with hok | hok | hok | hok
  · unfold helper_fcvt_w_s at hok
    split at hok
    · simp only [Outcome.ok.injEq] at hok
      exact main _ hok.2.symm
    next r hne => exact absurd hok (hne _ _)
  · unfold helper_fcvt_wu_s at hok
    split at hok
    · simp only [Outcome.ok.injEq] at hok
      exact main _ hok.2.symm
    next r hne => exact absurd hok (hne _ _)
  · unfold helper_fcvt_w_d at hok
    split at hok
    · simp only [Outcome.ok.injEq] at hok
      exact main _ hok.2.symm
    next r hne => exact absurd hok (hne _ _)
  · unfold helper_fcvt_wu_d at hok
    split at hok
    · simp only [Outcome.ok.injEq] at hok
      exact main _ hok.2.symm
    next r hne => exact absurd hok (hne _ _)

/-- Witness for fcvt_word_results_sign_extended: a primitive returning
the uint32 pattern 0x80000000 (bit 31 set) comes back through
helper_fcvt_wu_s as 0xFFFFFFFF80000000. -/
theorem fcvt_word_results_sign_extended_witness :
    ∃ r, r < 4294967296 ∧ (0xFFFFFFFF80000000 : Nat) = sext32 r ∧
      (0xFFFFFFFF80000000 : Nat) % 4294967296 = r ∧
      (r.testBit 31 = true → (0xFFFFFFFF80000000 : Nat) >>> 32 = 4294967295) ∧
      (r.testBit 31 = false → (0xFFFFFFFF80000000 : Nat) >>> 32 = 0) :=
  fcvt_word_results_sign_extended (fun _ _ => (0x80000000, 0))
    ⟨true, 0, 0, ⟨0, 0⟩⟩ ⟨true, 0, 0, ⟨0, 0⟩⟩ 0 0 0xFFFFFFFF80000000
    (Or.inr (Or.inl rfl))

end RiscvFpu
